import Mathlib

/-!
Verification of the gated-working-memory learning core of the leabrax
repository (packages `pcore`, `pbwm`/`agate`, `pvlv`).

Floating-point values are modelled as exact rationals (ℚ); the properties
verified here are structural (ordering of updates, branch selection, sign
and bound facts) and do not depend on rounding.  Machine integers (the gate
counter `Cnt`, quarter indices) are modelled as `Int`/`Nat`.  Paired layers
resolved by name at runtime are modelled as `Option` values (`none` =
lookup failed); a nil-pointer dereference is modelled as `Except.error`.
External generic primitives (leabra's `Norm.NormFmAbsDWt`,
`Momentum.MomentFmDWt`, the `PFCDyns.Value` dynamics table,
`DecayStatePool`) are out of scope per the specification and appear as
function parameters / recorded effects.
-/

/-! ## pcore/matrix.go : dorsal striatum matrix layer and trace learning -/

/-- DaReceptors: dominant dopamine receptor type. D1R = Go pathway, D2R = NoGo. -/
inductive DaReceptors where
  | D1R
  | D2R
  deriving Repr, DecidableEq

/-- MatrixParams (src/pcore/matrix.go): parameters for Dorsal Striatum Matrix
computation. `ThalLay` (a layer name) is represented by the resolved lookup
at use sites. -/
structure MatrixParams where
  ThalThr : ℚ
  Deriv : Bool
  BurstGain : ℚ
  DipGain : ℚ
  deriving Repr, DecidableEq

/-- MatrixParams.Defaults (src/pcore/matrix.go:28-36). -/
def MatrixParams.defaults : MatrixParams :=
  { ThalThr := 1/4, Deriv := true, BurstGain := 1, DipGain := 1 }

/-- MatrixParams.LrnFactor (src/pcore/matrix.go:41-46): multiplicative factor
for level of msn activation; sigmoid derivative `2 * act * (1-act)` when
`Deriv`, else the activation itself. -/
def MatrixParams.LrnFactor (mp : MatrixParams) (act : ℚ) : ℚ :=
  if !mp.Deriv then act else 2 * act * (1 - act)

/-- DALrn computation, first half of MatrixLayer.DAActLrn
(src/pcore/matrix.go:159-169): burst gain on positive raw DA, dip gain
otherwise, then sign reversal for D2R. -/
def DALrnFmDA (daR : DaReceptors) (mp : MatrixParams) (da : ℚ) : ℚ :=
  let d := if da > 0 then da * mp.BurstGain else da * mp.DipGain
  if daR = DaReceptors.D2R then -d else d

/-- Per-neuron state of a MatrixLayer used by DAActLrn: the `IsOff` flag, the
1-based sub-pool index, the layer's `AlphaMaxs` entry for this unit, and the
`ActLrn` training signal. -/
structure MatrixNeuron where
  Off : Bool
  SubPool : Nat
  AlphaMax : ℚ
  ActLrn : ℚ
  deriving Repr, DecidableEq

/-- Loop body of MatrixLayer.DAActLrn for one neuron
(src/pcore/matrix.go:177-189): compare the companion thalamic layer's
AlphaMax for this unit's pool against ThalThr and set `ActLrn` to
`±LrnFactor(AlphaMax)`. `thalAlphaMax` is the resolved thalamic layer's
`AlphaMaxs` array. -/
def DAActLrnNeuron (mp : MatrixParams) (thalAlphaMax : Nat → ℚ) (nrn : MatrixNeuron) :
    MatrixNeuron :=
  if nrn.Off then nrn
  else
    let amax := mp.LrnFactor nrn.AlphaMax
    let tact := thalAlphaMax (nrn.SubPool - 1)
    if tact > mp.ThalThr then { nrn with ActLrn := amax }
    else { nrn with ActLrn := -amax }

/-- MatrixLayer state relevant to DAActLrn (src/pcore/matrix.go:50-56 plus
the generic `DA` and `AlphaMaxCyc` fields used by it). -/
structure MatrixLayerState where
  DaR : DaReceptors
  Matrix : MatrixParams
  DA : ℚ
  DALrn : ℚ
  ACh : ℚ
  AlphaMaxCyc : Int
  Neurons : List MatrixNeuron
  deriving Repr, DecidableEq

/-- MatrixLayer.DAActLrn (src/pcore/matrix.go:159-190): sets the effective
learning dopamine `DALrn` from raw `DA`, then — only once `AlphaMaxCyc`
cycles have elapsed and only when the thalamic layer resolves — sets each
on unit's `ActLrn` contrastively.  `thal = none` models the
`ThalLayer()` lookup error (soft skip). -/
def DAActLrn (ly : MatrixLayerState) (cycle : Int) (thal : Option (Nat → ℚ)) :
    MatrixLayerState :=
  let ly1 := { ly with DALrn := DALrnFmDA ly.DaR ly.Matrix ly.DA }
  if cycle < ly.AlphaMaxCyc then ly1
  else
    match thal with
    | none => ly1
    | some t => { ly1 with Neurons := ly1.Neurons.map (DAActLrnNeuron ly.Matrix t) }

/-- MatrixTraceParams (src/pcore/matrix.go:243-246): temporal policy and
ACh decay multiplier for matrix trace learning. -/
structure MatrixTraceParams where
  CurTrlDA : Bool
  Decay : ℚ
  deriving Repr, DecidableEq

/-- MatrixTraceParams.Defaults (src/pcore/matrix.go:248-251). -/
def MatrixTraceParams.defaults : MatrixTraceParams :=
  { CurTrlDA := true, Decay := 2 }

/-- TraceSyn: per-synapse trace state of a MatrixPrjn (`Tr` accumulated
eligibility trace, `NTr` this trial's contribution). -/
structure TraceSyn where
  NTr : ℚ
  Tr : ℚ
  deriving Repr, DecidableEq

/-- Generic leabra synapse fields touched by MatrixPrjn.DWt. -/
structure Synapse where
  DWt : ℚ
  Norm : ℚ
  Moment : ℚ
  deriving Repr, DecidableEq

/-- Generic learning options of a projection as set by MatrixPrjn.Defaults
(src/pcore/matrix.go:266-274). -/
structure LearnParams where
  Learn : Bool
  Lrate : ℚ
  WtSigGain : ℚ
  NormOn : Bool
  MomentumOn : Bool
  WtBalOn : Bool
  deriving Repr, DecidableEq

/-- MatrixPrjn.Defaults (src/pcore/matrix.go:266-274): on top of the generic
projection defaults `base`, sets `WtSig.Gain = 1` and turns off `Norm`,
`Momentum` and `WtBal`. -/
def MatrixPrjnDefaults (base : LearnParams) : LearnParams :=
  { base with WtSigGain := 1, NormOn := false, MomentumOn := false, WtBalOn := false }

/-- ACh-driven trace decay factor `achDk = min(1, ach * Decay)`
(src/pcore/matrix.go:307). -/
def AChDecay (ach decay : ℚ) : ℚ := min 1 (ach * decay)

/-- Core trace / raw-weight-delta computation of MatrixPrjn.DWt for one
synapse (src/pcore/matrix.go:323-341): under the current-trial-DA policy the
trace is incremented by `ntr` before dopamine reads it; under the delayed
policy dopamine reads the old trace and `ntr` is added after decay.
Returns `(raw dwt, new Tr)`. -/
def TraceDWt (curTrlDA : Bool) (da daLrn achDk ntr tr0 : ℚ) : ℚ × ℚ :=
  let tr1 := if curTrlDA then tr0 + ntr else tr0
  let dwt := if da ≠ 0 then daLrn * tr1 else 0
  let tr2 := tr1 - achDk * tr1
  let tr3 := if !curTrlDA then tr2 + ntr else tr2
  (dwt, tr3)

/-- Full per-synapse body of MatrixPrjn.DWt (src/pcore/matrix.go:317-356):
`ntr = rn.ActLrn * sn.ActLrn`, trace/raw-dwt via `TraceDWt`, then the
generic Norm/Momentum transforms.  The external generic primitives
`NormFmAbsDWt` and `MomentFmDWt` (which mutate `sy.Norm` / `sy.Moment` and
return a factor) are parameters returning `(new field value, factor)`.
When `Norm` is off, `sy.Norm`/`sy.Moment` are instead overwritten with
`NTr`/`Tr` for inspection. -/
def MatrixDWtSyn (lp : LearnParams) (tp : MatrixTraceParams)
    (normFmAbsDWt : ℚ → ℚ → ℚ × ℚ) (momentFmDWt : ℚ → ℚ → ℚ × ℚ)
    (da daLrn achDk rActLrn sActLrn : ℚ) (sy : Synapse) (trsy : TraceSyn) :
    Synapse × TraceSyn :=
  let ntr := rActLrn * sActLrn
  let p := TraceDWt tp.CurTrlDA da daLrn achDk ntr trsy.Tr
  let trsy2 : TraceSyn := { NTr := ntr, Tr := p.2 }
  let st1 : ℚ × ℚ × ℚ :=
    if lp.NormOn then
      let q := normFmAbsDWt sy.Norm |p.1|
      (q.2, q.1, sy.Moment)
    else
      (1, trsy2.NTr, trsy2.Tr)
  let st2 : ℚ × ℚ :=
    if lp.MomentumOn then
      let m := momentFmDWt st1.2.2 p.1
      (st1.1 * m.2, m.1)
    else
      (p.1 * st1.1, st1.2.2)
  ({ DWt := sy.DWt + lp.Lrate * st2.1, Norm := st1.2.1, Moment := st2.2 }, trsy2)

/-! ## agate/neuron.go (pbwm) : PFC gating state machine and deep maintenance -/

/-- GateState: per-pool gating state. `Act` is the gating-drive magnitude,
`Now` the external gating decision for this cycle, `Cnt` the counter
(`-1` = idle/cleared, `0` = just gated, `>0` = quarters since gating,
more negative = quarters idle). -/
structure GateState where
  Act : ℚ
  Now : Bool
  Cnt : Int
  deriving Repr, DecidableEq

/-- View of the paired maintenance PFCDeep layer as used by ClearMaint:
its gate states, its `Maint.Clear` fraction, and whether its own super
layer lookup resolves. -/
structure MaintPFCView where
  GateStates : List GateState
  Clear : ℚ
  SuperResolved : Bool
  deriving Repr, DecidableEq

/-- PFCDeepLayer.ClearMaint (agate/neuron.go:236-247): resets maintenance in
the given pool of the paired maintenance layer.  A missing maintenance layer
(`maint = none`) is a soft miss (return, no change).  For established
maintenance (`Cnt >= 1`) the pool's counter is reset to `-1` and the
maintenance layer's super layer is decayed — that super lookup is
dereferenced unconditionally, so its absence is a nil dereference, modelled
as `Except.error ()`.  The returned list records `DecayStatePool(pool, Clear)`
calls on the maintenance layer's super layer. -/
def ClearMaint (maint : Option MaintPFCView) (pool : Nat) :
    Except Unit (Option MaintPFCView × List (Nat × ℚ)) :=
  match maint with
  | none => .ok (none, [])
  | some m =>
    match m.GateStates.get? pool with
    | none => .error ()
    | some gs =>
      if 1 ≤ gs.Cnt then
        if m.SuperResolved then
          .ok (some { m with GateStates := m.GateStates.set pool { gs with Cnt := -1 } },
               [(pool, m.Clear)])
        else .error ()
      else .ok (some m, [])

/-- PFCDeepLayer parameters and state relevant to Gating
(agate/neuron.go:39-57, 82-88): gate type and quarters, maintenance policy,
and the per-pool gate states. -/
structure PFCDeepState where
  OutGate : Bool
  OutQ1Only : Bool
  GateQtr : List Nat
  OutClearMaint : Bool
  Clear : ℚ
  MaxMaint : Int
  GateStates : List GateState
  deriving Repr, DecidableEq

/-- Body of PFCDeepLayer.Gating for one pool (agate/neuron.go:212-232).
On a fresh gate (`Now` and `Act > 0`) the counter is set to 0 and either the
paired maintenance pool is cleared (output gate with `OutClearMaint`) or the
super layer's pool is decayed (maintenance gate — the super lookup is
dereferenced unconditionally, so `superResolved = false` there is a fatal
nil dereference).  Afterwards an over-duration counter (`Cnt >= MaxMaint`)
is forced to `-1`.  Pools with `Now` false are skipped.  Returns the new
gate state, the threaded maintenance-layer view, decays recorded on this
layer's super, and decays recorded on the maintenance layer's super. -/
def GatingPool (ly : PFCDeepState) (superResolved : Bool) (maint : Option MaintPFCView)
    (gi : Nat) (gs : GateState) :
    Except Unit (GateState × Option MaintPFCView × List (Nat × ℚ) × List (Nat × ℚ)) :=
  if !gs.Now then .ok (gs, maint, [], [])
  else if 0 < gs.Act then
    let gs1 : GateState := { gs with Cnt := 0 }
    let gs2 : GateState := if ly.MaxMaint ≤ gs1.Cnt then { gs1 with Cnt := -1 } else gs1
    if ly.OutGate then
      if ly.OutClearMaint then
        match ClearMaint maint gi with
        | .error e => .error e
        | .ok (m', dks) => .ok (gs2, m', [], dks)
      else .ok (gs2, maint, [], [])
    else
      if superResolved then .ok (gs2, maint, [(gi, ly.Clear)], [])
      else .error ()
  else
    let gs2 : GateState := if ly.MaxMaint ≤ gs.Cnt then { gs with Cnt := -1 } else gs
    .ok (gs2, maint, [], [])

/-- Sequential loop of PFCDeepLayer.Gating over the pools starting at index
`gi`, threading the maintenance-layer view and accumulating recorded
decays. -/
def GatingPools (ly : PFCDeepState) (superResolved : Bool) :
    Nat → Option MaintPFCView → List GateState →
    Except Unit (List GateState × Option MaintPFCView × List (Nat × ℚ) × List (Nat × ℚ))
  | _, maint, [] => .ok ([], maint, [], [])
  | gi, maint, gs :: rest =>
    match GatingPool ly superResolved maint gi gs with
    | .error e => .error e
    | .ok (gs', m', d1, d2) =>
      match GatingPools ly superResolved (gi + 1) m' rest with
      | .error e => .error e
      | .ok (rest', m'', r1, r2) => .ok (gs' :: rest', m'', d1 ++ r1, d2 ++ r2)

/-- PFCDeepLayer.Gating (agate/neuron.go:205-233): skipped entirely for
output-Q1-only layers past the first two quarters (`Quarter > 1`), otherwise
runs `GatingPool` over every pool. -/
def Gating (ly : PFCDeepState) (quarter : Nat) (superResolved : Bool)
    (maint : Option MaintPFCView) :
    Except Unit (PFCDeepState × Option MaintPFCView × List (Nat × ℚ) × List (Nat × ℚ)) :=
  if ly.OutGate && ly.OutQ1Only && decide (1 < quarter) then .ok (ly, maint, [], [])
  else
    match GatingPools ly superResolved 0 maint ly.GateStates with
    | .error e => .error e
    | .ok (gss', m', d1, d2) => .ok ({ ly with GateStates := gss' }, m', d1, d2)

/-- Per-pool counter step of PFCDeepLayer.UpdtGateCnt
(agate/neuron.go:312-320): decrement while negative (idle), increment
otherwise. -/
def UpdtCnt (cnt : Int) : Int := if cnt < 0 then cnt - 1 else cnt + 1

/-- PFCDeepLayer.UpdtGateCnt (agate/neuron.go:308-321): at quarters in the
layer's gating-quarter set, apply `UpdtCnt` to every pool's counter. -/
def UpdtGateCnt (gateQtr : List Nat) (quarter : Nat) (gss : List GateState) :
    List GateState :=
  if quarter ∈ gateQtr then gss.map (fun gs => { gs with Cnt := UpdtCnt gs.Cnt })
  else gss

/-- PFCNeuron (agate/neuron.go:68-72): extra per-unit PFC state. -/
structure PFCNeuronState where
  ActG : ℚ
  Maint : ℚ
  MaintGe : ℚ
  deriving Repr, DecidableEq

/-- Flat super-layer index corresponding to deep-layer flat unit index `ni`
in DeepMaint (agate/neuron.go:283-295): with `nn = yN*xN` units per deep
pool and `snn = syN*sxN` per super pool, `ui = ni % nn`, `pi = ni / nn`,
`uy = ui / xN`, `ux = ui % xN`, `sy = uy % syN`,
`si = pi*snn + sy*sxN + ux`. -/
def SuperIdx (yN xN syN sxN ni : Nat) : Nat :=
  let nn := yN * xN
  let snn := syN * sxN
  let ui := ni % nn
  let pi := ni / nn
  let uy := ui / xN
  let ux := ui % xN
  let sy := uy % syN
  pi * snn + sy * sxN + ux

/-- Loop body of PFCDeepLayer.DeepMaint for one deep-layer unit
(agate/neuron.go:278-304).  `dynValue typ t` models the external
`Dyns.Value` dynamics table; `dtyp = yN / (yN / syN)` as in the source.
Off units are skipped; an idle pool (`Cnt < 0`) zeroes `Maint`/`MaintGe`;
first gating (`Cnt <= 1`) snapshots `MaintGain *` the corresponding super
unit's activation into `Maint`; then `MaintGe` is recomputed from `Maint`,
through the dynamics table when `useDyn`. -/
def DeepMaintUnit (maintGain : ℚ) (useDyn : Bool) (dynValue : Nat → ℚ → ℚ)
    (yN xN syN sxN : Nat) (superAct : Nat → ℚ)
    (ni : Nat) (off : Bool) (gsCnt : Int) (pnr : PFCNeuronState) : PFCNeuronState :=
  if off then pnr
  else
    let dper := yN / syN
    let dtyp := yN / dper
    let pnr1 :=
      if gsCnt < 0 then { pnr with Maint := 0, MaintGe := 0 }
      else if gsCnt ≤ 1 then { pnr with Maint := maintGain * superAct (SuperIdx yN xN syN sxN ni) }
      else pnr
    if useDyn then { pnr1 with MaintGe := pnr1.Maint * dynValue dtyp ((gsCnt - 1 : Int) : ℚ) }
    else { pnr1 with MaintGe := pnr1.Maint }

/-- Resolved super layer as read by DeepMaint: its shape dims
(`Shp.Dim(2)`, `Shp.Dim(3)`) and per-unit activations. -/
structure SuperView where
  YN : Nat
  XN : Nat
  Act : Nat → ℚ

/-- Indexed loop over the parallel `Neurons`/`PFCNeurs` arrays of a deep
layer: applies `f` to each unit together with its flat index. -/
def DeepMaintLoop (f : Nat → ((Bool × Nat) × PFCNeuronState) → PFCNeuronState) :
    Nat → List ((Bool × Nat) × PFCNeuronState) → List PFCNeuronState
  | _, [] => []
  | ni, u :: rest => f ni u :: DeepMaintLoop f (ni + 1) rest

/-- PFCDeepLayer.DeepMaint (agate/neuron.go:257-305): at quarters in the
gating-quarter set, and only when the super layer resolves (`super = some`),
update every unit's PFC maintenance state via `DeepMaintUnit`.  `units`
zips each unit's `(IsOff, SubPool)` with its `PFCNeuron` state (the two
parallel arrays of the layer); `gateCnt p` is pool `p`'s counter
(0-based).  Returns the new `PFCNeurs` array. -/
def DeepMaint (gateQtr : List Nat) (quarter : Nat) (super : Option SuperView)
    (maintGain : ℚ) (useDyn : Bool) (dynValue : Nat → ℚ → ℚ) (yN xN : Nat)
    (gateCnt : Nat → Int) (units : List ((Bool × Nat) × PFCNeuronState)) :
    List PFCNeuronState :=
  if quarter ∈ gateQtr then
    match super with
    | none => units.map (fun u => u.2)
    | some s =>
      DeepMaintLoop
        (fun ni u => DeepMaintUnit maintGain useDyn dynValue yN xN s.YN s.XN s.Act
          ni u.1.1 (gateCnt (u.1.2 - 1)) u.2) 0 units
  else units.map (fun u => u.2)

/-! ## pvlv/pv_layer.go : primary-value direct broadcast -/

/-- Per-unit source state read by PVLayer.SendPVAct: computed activation and
external (clamped/expected) value. -/
structure PVUnit where
  Act : ℚ
  Ext : ℚ
  deriving Repr, DecidableEq, Inhabited

/-- Write of PVLayer.SendPVAct into one receiver layer
(src/pvlv/pv_layer.go:45-52): for every source unit index `pi`, the
receiver's `ModNeurs[pi].PVAct` becomes `max(Act, Ext)` of the source unit;
receiver entries beyond the source length are untouched. -/
def SendPVActTo (src : List PVUnit) (pvAct : List ℚ) : List ℚ :=
  List.zipWith (fun u _ => max u.Act u.Ext) src pvAct ++ pvAct.drop src.length

/-- PVLayer.SendPVAct (src/pvlv/pv_layer.go:44-53): broadcast into every
registered receiver layer's `PVAct` array. -/
def SendPVAct (src : List PVUnit) (receivers : List (List ℚ)) : List (List ℚ) :=
  receivers.map (SendPVActTo src)

/-- PVLayer.CyclePost (src/pvlv/pv_layer.go:55-59): run the broadcast
exactly when the current quarter equals `SendPVQuarter`, else leave every
receiver untouched. -/
def PVCyclePost (sendPVQuarter quarter : Nat) (src : List PVUnit)
    (receivers : List (List ℚ)) : List (List ℚ) :=
  if quarter = sendPVQuarter then SendPVAct src receivers else receivers

/-! ## Claim theorems -/

/-- C1: For every learning-enabled gating projection and every synapse, one
learning pass (DWt) with `ntr = recv.ActLrn * send.ActLrn` follows the
selected temporal policy: under current-trial-DA the trace gets `ntr`
first, dopamine reads it (`dwt = DALrn * Tr` only when raw `DA ≠ 0`, else
`dwt = 0`), then the trace is decayed; under delayed-DA dopamine reads the
trace as it stood before this trial (only when raw `DA ≠ 0`), the trace is
decayed, then `ntr` is added — so the trace dopamine consumes never
includes the current trial's `ntr`. -/
theorem C1_dwt_temporal_policy (da daLrn achDk rActLrn sActLrn tr0 : ℚ)
    (lp : LearnParams) (tp : MatrixTraceParams)
    (normFmAbsDWt momentFmDWt : ℚ → ℚ → ℚ × ℚ) (sy : Synapse) (trsy : TraceSyn) :
    TraceDWt true da daLrn achDk (rActLrn * sActLrn) tr0 =
      (if da ≠ 0 then daLrn * (tr0 + rActLrn * sActLrn) else 0,
       (tr0 + rActLrn * sActLrn) - achDk * (tr0 + rActLrn * sActLrn))
    ∧ TraceDWt false da daLrn achDk (rActLrn * sActLrn) tr0 =
      (if da ≠ 0 then daLrn * tr0 else 0,
       (tr0 - achDk * tr0) + rActLrn * sActLrn)
    ∧ (MatrixDWtSyn lp tp normFmAbsDWt momentFmDWt da daLrn achDk
        rActLrn sActLrn sy trsy).2 =
      { NTr := rActLrn * sActLrn,
        Tr := (TraceDWt tp.CurTrlDA da daLrn achDk (rActLrn * sActLrn) trsy.Tr).2 } := by
  refine ⟨?_, ?_, ?_⟩
  · simp [TraceDWt]
  · simp [TraceDWt]
  · simp [MatrixDWtSyn]

/-- C5: For every learning layer and raw dopamine value, the per-cycle
derivation sets `DALrn = DA * BurstGain` when `DA > 0` and
`DA * DipGain` otherwise, then negates exactly for D2R polarity; hence at
raw `DA = 1/2` with identical (positive-burst-gain) parameters, D1R and
D2R layers obtain `DALrn` of opposite sign. -/
theorem C5_dalrn_polarity (ly : MatrixLayerState) (cycle : Int)
    (thal : Option (Nat → ℚ)) (mp : MatrixParams) (daR : DaReceptors) (da : ℚ)
    (hbg : 0 < mp.BurstGain) :
    (DAActLrn ly cycle thal).DALrn = DALrnFmDA ly.DaR ly.Matrix ly.DA
    ∧ DALrnFmDA daR mp da =
        (if daR = DaReceptors.D2R then -1 else 1) *
          (if 0 < da then da * mp.BurstGain else da * mp.DipGain)
    ∧ 0 < DALrnFmDA DaReceptors.D1R mp (1/2)
    ∧ DALrnFmDA DaReceptors.D2R mp (1/2) < 0 := by
  have hpos : 0 < (1/2 : ℚ) * mp.BurstGain := by positivity
  refine ⟨?_, ?_, ?_, ?_⟩
  · unfold DAActLrn
    split
    · rfl
    · cases thal <;> rfl
  · unfold DALrnFmDA
    cases daR <;> (by_cases h : 0 < da <;> simp [gt_iff_lt, h])
  · simpa [DALrnFmDA] using hpos
  · simpa [DALrnFmDA] using hpos

/-- Witness for C5 at the default matrix parameters. -/
theorem C5_dalrn_polarity_witness :
    (DAActLrn ⟨DaReceptors.D1R, MatrixParams.defaults, 1/2, 0, 0, 25, []⟩ 0 none).DALrn
      = DALrnFmDA DaReceptors.D1R MatrixParams.defaults (1/2)
    ∧ DALrnFmDA DaReceptors.D2R MatrixParams.defaults (1/2) =
        (if DaReceptors.D2R = DaReceptors.D2R then -1 else 1) *
          (if 0 < (1/2 : ℚ) then (1/2 : ℚ) * MatrixParams.defaults.BurstGain
           else (1/2 : ℚ) * MatrixParams.defaults.DipGain)
    ∧ 0 < DALrnFmDA DaReceptors.D1R MatrixParams.defaults (1/2)
    ∧ DALrnFmDA DaReceptors.D2R MatrixParams.defaults (1/2) < 0 :=
  C5_dalrn_polarity ⟨DaReceptors.D1R, MatrixParams.defaults, 1/2, 0, 0, 25, []⟩ 0 none
    MatrixParams.defaults DaReceptors.D2R (1/2) (by norm_num [MatrixParams.defaults])

/-- C7: For every synapse, every `ACh ≥ 0` and decay gain `≥ 0`, the decay
factor equals `min(1, ACh * Decay)`, lies in `[0, 1]`, and the decay step
`Tr -= achDecay * Tr` never grows the trace in magnitude. -/
theorem C7_trace_decay_clamped (ach decay tr : ℚ) (h1 : 0 ≤ ach) (h2 : 0 ≤ decay) :
    0 ≤ AChDecay ach decay ∧ AChDecay ach decay ≤ 1 ∧
      |tr - AChDecay ach decay * tr| ≤ |tr| := by
  have hd0 : 0 ≤ AChDecay ach decay := le_min (by norm_num) (mul_nonneg h1 h2)
  have hd1 : AChDecay ach decay ≤ 1 := min_le_left _ _
  refine ⟨hd0, hd1, ?_⟩
  have h3 : |tr - AChDecay ach decay * tr| = (1 - AChDecay ach decay) * |tr| := by
    rw [show tr - AChDecay ach decay * tr = (1 - AChDecay ach decay) * tr by ring,
      abs_mul, abs_of_nonneg (by linarith)]
  rw [h3]
  nlinarith [abs_nonneg tr]

/-- Witness for C7 at `ACh = 1`, `Decay = 2`, `Tr = 3`. -/
theorem C7_trace_decay_clamped_witness :
    0 ≤ AChDecay 1 2 ∧ AChDecay 1 2 ≤ 1 ∧ |(3:ℚ) - AChDecay 1 2 * 3| ≤ |(3:ℚ)| :=
  C7_trace_decay_clamped 1 2 3 (by norm_num) (by norm_num)

/-- C10: In every learning pass with the projection's generic normalization
option off (and momentum off, as the projection defaults leave them), DWt
overwrites each synapse's generic `Norm` field with this trial's `NTr` and
its `Moment` field with the updated `Tr`; and `MatrixPrjn.Defaults` indeed
turns normalization and momentum off. -/
theorem C10_norm_moment_storage (lp : LearnParams) (tp : MatrixTraceParams)
    (normFmAbsDWt momentFmDWt : ℚ → ℚ → ℚ × ℚ)
    (da daLrn achDk rActLrn sActLrn : ℚ) (sy : Synapse) (trsy : TraceSyn)
    (base : LearnParams) (hn : lp.NormOn = false) (hm : lp.MomentumOn = false) :
    (MatrixDWtSyn lp tp normFmAbsDWt momentFmDWt da daLrn achDk
        rActLrn sActLrn sy trsy).1.Norm = rActLrn * sActLrn
    ∧ (MatrixDWtSyn lp tp normFmAbsDWt momentFmDWt da daLrn achDk
        rActLrn sActLrn sy trsy).1.Moment
      = (TraceDWt tp.CurTrlDA da daLrn achDk (rActLrn * sActLrn) trsy.Tr).2
    ∧ (MatrixPrjnDefaults base).NormOn = false
    ∧ (MatrixPrjnDefaults base).MomentumOn = false := by
  refine ⟨?_, ?_, rfl, rfl⟩ <;> simp [MatrixDWtSyn, hn, hm]

/-- Witness for C10 on a concrete synapse. -/
theorem C10_norm_moment_storage_witness :
    (MatrixDWtSyn ⟨true, 1, 1, false, false, false⟩ ⟨true, 2⟩
        (fun a b => (a, b)) (fun a b => (a, b)) 1 2 (1/2) 3 4 ⟨10, 20, 30⟩ ⟨0, 4⟩).1.Norm
      = 3 * 4
    ∧ (MatrixDWtSyn ⟨true, 1, 1, false, false, false⟩ ⟨true, 2⟩
        (fun a b => (a, b)) (fun a b => (a, b)) 1 2 (1/2) 3 4 ⟨10, 20, 30⟩ ⟨0, 4⟩).1.Moment
      = (TraceDWt (true : Bool) 1 2 (1/2) (3 * 4) 4).2
    ∧ (MatrixPrjnDefaults ⟨true, 1, 1, true, true, true⟩).NormOn = false
    ∧ (MatrixPrjnDefaults ⟨true, 1, 1, true, true, true⟩).MomentumOn = false :=
  C10_norm_moment_storage ⟨true, 1, 1, false, false, false⟩ ⟨true, 2⟩
    (fun a b => (a, b)) (fun a b => (a, b)) 1 2 (1/2) 3 4 ⟨10, 20, 30⟩ ⟨0, 4⟩
    ⟨true, 1, 1, true, true, true⟩ rfl rfl

/-- C3: For every pool whose counter has reached `MaxMaint` (with
`MaxMaint ≥ 1` as its parameter range requires), the next gating cycle in
which the pool is evaluated (its `Now` flag set) forces `Cnt = -1`
regardless of prior trajectory, unless a fresh gate event
(`Now` and `Act > 0`) in the same step resets `Cnt` to 0 instead. -/
theorem C3_forced_clear (ly : PFCDeepState) (superResolved : Bool)
    (maint : Option MaintPFCView) (gi : Nat) (gs : GateState)
    (out : GateState × Option MaintPFCView × List (Nat × ℚ) × List (Nat × ℚ))
    (hnow : gs.Now = true) (hmax : 1 ≤ ly.MaxMaint) (hcnt : ly.MaxMaint ≤ gs.Cnt)
    (hok : GatingPool ly superResolved maint gi gs = .ok out) :
    out.1.Cnt = if 0 < gs.Act then 0 else -1 := by
  unfold GatingPool at hok
  simp only [hnow, Bool.not_true, Bool.false_eq_true, if_false] at hok
  by_cases hact : 0 < gs.Act
  · have h2 : ¬ ly.MaxMaint ≤ (({ gs with Cnt := 0 } : GateState)).Cnt := by
      simp only []
      omega
    simp only [hact, if_true, h2, if_false] at hok
    rw [if_pos hact]
    split at hok
    · split at hok
      · split at hok
        · exact absurd hok (by simp)
        · cases hok
          rfl
      · cases hok
        rfl
    · split at hok
      · cases hok
        rfl
      · exact absurd hok (by simp)
  · have h2 : ly.MaxMaint ≤ gs.Cnt := hcnt
    simp only [hact, if_false, h2, if_true] at hok
    rw [if_neg hact]
    cases hok
    rfl

/-- Witness for C3 on a concrete over-duration pool with `Now` set and no
fresh gate drive. -/
theorem C3_forced_clear_witness :
    ((⟨0, true, -1⟩ : GateState)).Cnt = if (0 : ℚ) < 0 then 0 else -1 :=
  C3_forced_clear ⟨false, true, [1], false, 0, 3, []⟩ true none 0 ⟨0, true, 5⟩
    (⟨0, true, -1⟩, none, [], []) rfl (by norm_num) (by norm_num) rfl

/-- C4: Across successive gating-quarter counter updates, each pool's `Cnt`
is incremented by 1 per eligible quarter while nonnegative (hence
monotonically non-decreasing) and decremented by 1 per eligible quarter
while negative (hence monotonically non-increasing), absent an external
gate event. -/
theorem C4_cnt_monotone (gateQtr : List Nat) (quarter : Nat) (gss : List GateState)
    (gi : Nat) (gs : GateState) (k : Nat)
    (hq : quarter ∈ gateQtr) (hg : gss.get? gi = some gs) :
    (UpdtGateCnt gateQtr quarter gss).get? gi = some { gs with Cnt := UpdtCnt gs.Cnt }
    ∧ (0 ≤ gs.Cnt → UpdtCnt gs.Cnt = gs.Cnt + 1)
    ∧ (gs.Cnt < 0 → UpdtCnt gs.Cnt = gs.Cnt - 1)
    ∧ (0 ≤ gs.Cnt → UpdtCnt^[k] gs.Cnt = gs.Cnt + k)
    ∧ (gs.Cnt < 0 → UpdtCnt^[k] gs.Cnt = gs.Cnt - k) := by
  have hup : ∀ (n : Nat) (x : Int), 0 ≤ x → UpdtCnt^[n] x = x + n := by
    intro n
    induction n with
    | zero => intro x _; simp
    | succ m ih =>
      intro x hx
      rw [Function.iterate_succ_apply]
      have h1 : UpdtCnt x = x + 1 := by unfold UpdtCnt; rw [if_neg (by omega)]
      rw [h1, ih (x + 1) (by omega)]
      push_cast
      ring
  have hdn : ∀ (n : Nat) (x : Int), x < 0 → UpdtCnt^[n] x = x - n := by
    intro n
    induction n with
    | zero => intro x _; simp
    | succ m ih =>
      intro x hx
      rw [Function.iterate_succ_apply]
      have h1 : UpdtCnt x = x - 1 := by unfold UpdtCnt; rw [if_pos hx]
      rw [h1, ih (x - 1) (by omega)]
      push_cast
      ring
  refine ⟨?_, ?_, ?_, fun h => hup k gs.Cnt h, fun h => hdn k gs.Cnt h⟩
  · unfold UpdtGateCnt
    rw [if_pos hq, List.get?_map, hg]
    rfl
  · intro h; unfold UpdtCnt; rw [if_neg (by omega)]
  · intro h; unfold UpdtCnt; rw [if_pos h]

/-- Witness for C4 on a one-pool layer with `Cnt = 2` at an eligible
quarter, iterated 5 times. -/
theorem C4_cnt_monotone_witness :
    (UpdtGateCnt [1, 3] 1 [⟨0, false, 2⟩]).get? 0
      = some { (⟨0, false, 2⟩ : GateState) with Cnt := UpdtCnt 2 }
    ∧ ((0 : Int) ≤ 2 → UpdtCnt 2 = 2 + 1)
    ∧ ((2 : Int) < 0 → UpdtCnt 2 = 2 - 1)
    ∧ ((0 : Int) ≤ 2 → UpdtCnt^[5] 2 = 2 + 5)
    ∧ ((2 : Int) < 0 → UpdtCnt^[5] 2 = 2 - 5) :=
  C4_cnt_monotone [1, 3] 1 [⟨0, false, 2⟩] 0 ⟨0, false, 2⟩ 5 (by decide) rfl

/-- C6: On a cycle at or after `AlphaMaxCyc` with the thalamic layer
resolved, every on unit's `ActLrn` is set to `+LrnFactor(AlphaMax)` when
the companion pool's peak thalamic activation exceeds `ThalThr` and to
`-LrnFactor(AlphaMax)` otherwise; on earlier cycles no unit's `ActLrn` is
modified. -/
theorem C6_contrastive_actlrn (ly : MatrixLayerState) (cycle : Int) (t : Nat → ℚ)
    (thal : Option (Nat → ℚ)) (ni : Nat) (nrn : MatrixNeuron)
    (hg : ly.Neurons.get? ni = some nrn) :
    (ly.AlphaMaxCyc ≤ cycle → nrn.Off = false →
      (DAActLrn ly cycle (some t)).Neurons.get? ni =
        some { nrn with
          ActLrn := if t (nrn.SubPool - 1) > ly.Matrix.ThalThr
                    then ly.Matrix.LrnFactor nrn.AlphaMax
                    else -(ly.Matrix.LrnFactor nrn.AlphaMax) })
    ∧ (cycle < ly.AlphaMaxCyc → (DAActLrn ly cycle thal).Neurons = ly.Neurons) := by
  constructor
  · intro hcyc hoff
    simp only [DAActLrn]
    rw [if_neg (by omega)]
    simp only [List.get?_map, hg]
    show some (DAActLrnNeuron ly.Matrix t nrn) = _
    unfold DAActLrnNeuron
    rw [hoff]
    simp only [Bool.false_eq_true, if_false]
    split <;> rfl
  · intro hcyc
    simp only [DAActLrn]
    rw [if_pos hcyc]

/-- Witness for C6 on a two-unit layer past the integration window. -/
theorem C6_contrastive_actlrn_witness :
    ((25 : Int) ≤ 30 → (false : Bool) = false →
      (DAActLrn
        ⟨DaReceptors.D1R, MatrixParams.defaults, 0, 0, 0, 25,
          [⟨false, 1, 1/2, 0⟩]⟩ 30 (some (fun _ => 1))).Neurons.get? 0 =
        some { (⟨false, 1, 1/2, 0⟩ : MatrixNeuron) with
          ActLrn := if (fun _ : Nat => (1 : ℚ)) (1 - 1) > MatrixParams.defaults.ThalThr
                    then MatrixParams.defaults.LrnFactor (1/2)
                    else -(MatrixParams.defaults.LrnFactor (1/2)) })
    ∧ ((30 : Int) < 25 →
        (DAActLrn
          ⟨DaReceptors.D1R, MatrixParams.defaults, 0, 0, 0, 25,
            [⟨false, 1, 1/2, 0⟩]⟩ 30 none).Neurons =
          [⟨false, 1, 1/2, 0⟩]) :=
  C6_contrastive_actlrn
    ⟨DaReceptors.D1R, MatrixParams.defaults, 0, 0, 0, 25, [⟨false, 1, 1/2, 0⟩]⟩
    30 (fun _ => 1) none 0 ⟨false, 1, 1/2, 0⟩ rfl

/-- Helper: element characterization of the indexed DeepMaint loop. -/
theorem DeepMaintLoop_get (f : Nat → ((Bool × Nat) × PFCNeuronState) → PFCNeuronState)
    (l : List ((Bool × Nat) × PFCNeuronState)) (n i : Nat) :
    (DeepMaintLoop f n l).get? i = (l.get? i).map (f (n + i)) := by
  induction l generalizing n i with
  | nil => simp [DeepMaintLoop]
  | cons u rest ih =>
    cases i with
    | zero => simp [DeepMaintLoop]
    | succ j =>
      have hnj : n + (j + 1) = (n + 1) + j := by omega
      simp only [DeepMaintLoop, List.get?_cons_succ, hnj, ih]

/-- C2: At a quarter in the gating-quarter set with the super layer
resolved, DeepMaint maps every on unit through `DeepMaintUnit`, which
zeroes `Maint` and `MaintGe` for an idle pool (`Cnt < 0`), snapshots
`MaintGain *` the corresponding super unit's activation into `Maint` when
`0 ≤ Cnt ≤ 1`, and in every non-idle case recomputes `MaintGe` as
`Maint * Dyns(dynType, Cnt - 1)` under deterministic dynamics, else as
`Maint` itself. -/
theorem C2_deep_maint (gateQtr : List Nat) (quarter : Nat) (s : SuperView)
    (maintGain : ℚ) (useDyn : Bool) (dynValue : Nat → ℚ → ℚ) (yN xN : Nat)
    (gateCnt : Nat → Int) (units : List ((Bool × Nat) × PFCNeuronState))
    (ni sp : Nat) (pnr : PFCNeuronState)
    (hq : quarter ∈ gateQtr) (hu : units.get? ni = some ((false, sp), pnr)) :
    (DeepMaint gateQtr quarter (some s) maintGain useDyn dynValue yN xN gateCnt
        units).get? ni
      = some (DeepMaintUnit maintGain useDyn dynValue yN xN s.YN s.XN s.Act ni false
          (gateCnt (sp - 1)) pnr)
    ∧ (gateCnt (sp - 1) < 0 →
        (DeepMaintUnit maintGain useDyn dynValue yN xN s.YN s.XN s.Act ni false
          (gateCnt (sp - 1)) pnr).Maint = 0
        ∧ (DeepMaintUnit maintGain useDyn dynValue yN xN s.YN s.XN s.Act ni false
            (gateCnt (sp - 1)) pnr).MaintGe = 0)
    ∧ (0 ≤ gateCnt (sp - 1) → gateCnt (sp - 1) ≤ 1 →
        (DeepMaintUnit maintGain useDyn dynValue yN xN s.YN s.XN s.Act ni false
          (gateCnt (sp - 1)) pnr).Maint
          = maintGain * s.Act (SuperIdx yN xN s.YN s.XN ni))
    ∧ (0 ≤ gateCnt (sp - 1) →
        (DeepMaintUnit maintGain useDyn dynValue yN xN s.YN s.XN s.Act ni false
          (gateCnt (sp - 1)) pnr).MaintGe
          = if useDyn then
              (DeepMaintUnit maintGain useDyn dynValue yN xN s.YN s.XN s.Act ni false
                (gateCnt (sp - 1)) pnr).Maint
                * dynValue (yN / (yN / s.YN)) ((gateCnt (sp - 1) - 1 : Int) : ℚ)
            else
              (DeepMaintUnit maintGain useDyn dynValue yN xN s.YN s.XN s.Act ni false
                (gateCnt (sp - 1)) pnr).Maint) := by
  refine ⟨?_, ?_, ?_, ?_⟩
  · unfold DeepMaint
    rw [if_pos hq]
    rw [DeepMaintLoop_get, hu]
    show some (DeepMaintUnit maintGain useDyn dynValue yN xN s.YN s.XN s.Act (0 + ni)
      false (gateCnt ((false, sp).2 - 1)) pnr) = _
    simp
  · intro h
    unfold DeepMaintUnit
    simp only [Bool.false_eq_true, if_false, if_pos h]
    constructor <;> (split <;> simp)
  · intro h0 h1
    unfold DeepMaintUnit
    simp only [Bool.false_eq_true, if_false]
    rw [if_neg (by omega : ¬ gateCnt (sp - 1) < 0), if_pos h1]
    split <;> rfl
  · intro h0
    cases useDyn with
    | false =>
      unfold DeepMaintUnit
      simp
    | true =>
      unfold DeepMaintUnit
      simp

/-- Witness for C2 on a one-unit layer in its first gated quarter. -/
theorem C2_deep_maint_witness :
    (DeepMaint [1, 3] 1 (some ⟨1, 1, fun i => (i : ℚ)⟩) (4/5) false (fun _ _ => 7) 1 1
        (fun _ => 1) [((false, 1), ⟨0, 9, 9⟩)]).get? 0
      = some (DeepMaintUnit (4/5) false (fun _ _ => 7) 1 1 1 1 (fun i => (i : ℚ)) 0 false
          ((fun _ : Nat => (1 : Int)) (1 - 1)) ⟨0, 9, 9⟩)
    ∧ ((fun _ : Nat => (1 : Int)) (1 - 1) < 0 →
        (DeepMaintUnit (4/5) false (fun _ _ => 7) 1 1 1 1 (fun i => (i : ℚ)) 0 false
          ((fun _ : Nat => (1 : Int)) (1 - 1)) ⟨0, 9, 9⟩).Maint = 0
        ∧ (DeepMaintUnit (4/5) false (fun _ _ => 7) 1 1 1 1 (fun i => (i : ℚ)) 0 false
            ((fun _ : Nat => (1 : Int)) (1 - 1)) ⟨0, 9, 9⟩).MaintGe = 0)
    ∧ (0 ≤ (fun _ : Nat => (1 : Int)) (1 - 1) → (fun _ : Nat => (1 : Int)) (1 - 1) ≤ 1 →
        (DeepMaintUnit (4/5) false (fun _ _ => 7) 1 1 1 1 (fun i => (i : ℚ)) 0 false
          ((fun _ : Nat => (1 : Int)) (1 - 1)) ⟨0, 9, 9⟩).Maint
          = (4/5) * (fun i => (i : ℚ)) (SuperIdx 1 1 1 1 0))
    ∧ (0 ≤ (fun _ : Nat => (1 : Int)) (1 - 1) →
        (DeepMaintUnit (4/5) false (fun _ _ => 7) 1 1 1 1 (fun i => (i : ℚ)) 0 false
          ((fun _ : Nat => (1 : Int)) (1 - 1)) ⟨0, 9, 9⟩).MaintGe
          = if false then
              (DeepMaintUnit (4/5) false (fun _ _ => 7) 1 1 1 1 (fun i => (i : ℚ)) 0 false
                ((fun _ : Nat => (1 : Int)) (1 - 1)) ⟨0, 9, 9⟩).Maint
                * (fun _ _ => (7 : ℚ)) (1 / (1 / 1)) (((fun _ : Nat => (1 : Int)) (1 - 1) - 1 : Int) : ℚ)
            else
              (DeepMaintUnit (4/5) false (fun _ _ => 7) 1 1 1 1 (fun i => (i : ℚ)) 0 false
                ((fun _ : Nat => (1 : Int)) (1 - 1)) ⟨0, 9, 9⟩).Maint) :=
  C2_deep_maint [1, 3] 1 ⟨1, 1, fun i => (i : ℚ)⟩ (4/5) false (fun _ _ => 7) 1 1
    (fun _ => 1) [((false, 1), ⟨0, 9, 9⟩)] 0 1 ⟨0, 9, 9⟩ (by decide) rfl

/-- Helper: element characterization of the per-receiver PV write. -/
theorem SendPVActTo_get (src : List PVUnit) (rv : List ℚ) (pi : Nat)
    (h1 : pi < src.length) (h2 : pi < rv.length) :
    (SendPVActTo src rv).get? pi
      = some (max (src.getD pi default).Act (src.getD pi default).Ext) := by
  induction src generalizing rv pi with
  | nil => simp at h1
  | cons u rest ih =>
    cases rv with
    | nil => simp at h2
    | cons v rvt =>
      cases pi with
      | zero => simp [SendPVActTo]
      | succ j =>
        have h1' : j < rest.length := by simp at h1; omega
        have h2' : j < rvt.length := by simp at h2; omega
        simp only [SendPVActTo, List.zipWith_cons_cons, List.drop_succ_cons,
          List.cons_append, List.get?_cons_succ, List.getD_cons_succ]
        exact ih rvt j h1' h2'

/-- C9: When the cycle's quarter equals the configured send quarter, the
broadcast rewrites every registered receiver through `SendPVActTo`, which
sets each unit's `PVAct` to `max(Act, Ext)` of the source unit at the same
flat index; in any other quarter no receiver is written. -/
theorem C9_pv_broadcast (q quarter : Nat) (src : List PVUnit)
    (receivers : List (List ℚ)) (ri : Nat) (rv : List ℚ) (pi : Nat)
    (hr : receivers.get? ri = some rv) (h1 : pi < src.length) (h2 : pi < rv.length) :
    (quarter = q →
      (PVCyclePost q quarter src receivers).get? ri = some (SendPVActTo src rv)
      ∧ (SendPVActTo src rv).get? pi
          = some (max (src.getD pi default).Act (src.getD pi default).Ext))
    ∧ (quarter ≠ q → PVCyclePost q quarter src receivers = receivers) := by
  constructor
  · intro hq
    constructor
    · unfold PVCyclePost SendPVAct
      rw [if_pos hq, List.get?_map, hr]
      rfl
    · exact SendPVActTo_get src rv pi h1 h2
  · intro hq
    unfold PVCyclePost
    rw [if_neg hq]

/-- Witness for C9 with a two-unit source at the send quarter. -/
theorem C9_pv_broadcast_witness :
    ((3 : Nat) = 3 →
      (PVCyclePost 3 3 [⟨1, 2⟩, ⟨5, 0⟩] [[0, 0]]).get? 0
        = some (SendPVActTo [⟨1, 2⟩, ⟨5, 0⟩] [0, 0])
      ∧ (SendPVActTo [⟨1, 2⟩, ⟨5, 0⟩] [0, 0]).get? 1
          = some (max (([⟨1, 2⟩, ⟨5, 0⟩] : List PVUnit).getD 1 default).Act
              (([⟨1, 2⟩, ⟨5, 0⟩] : List PVUnit).getD 1 default).Ext))
    ∧ ((3 : Nat) ≠ 3 → PVCyclePost 3 3 [⟨1, 2⟩, ⟨5, 0⟩] [[0, 0]] = [[0, 0]]) :=
  C9_pv_broadcast 3 3 [⟨1, 2⟩, ⟨5, 0⟩] [[0, 0]] 0 [0, 0] 1 rfl (by norm_num) (by norm_num)

/-- C8 counterexample: the claim that absence of the paired layer is always
a soft miss fails for the maintenance-gate branch of Gating — on a layer
with a gating pool (`Now`, `Act > 0`) whose super layer does not resolve,
Gating dereferences the nil super layer (a fatal error), instead of
skipping. -/
theorem C8_gating_fatal_counterexample :
    Gating ⟨false, true, [1, 3], false, 0, 100, [⟨1, true, 5⟩]⟩ 1 false none
      = .error () := by
  rfl

/-- C8 (amended): ClearMaint with the maintenance layer absent, DeepMaint
with the super layer absent, and the contrastive-signal derivation with the
thalamic layer absent all skip the dependent operation as a soft miss; but
the maintenance-gate branch of Gating dereferences the super layer
unconditionally, so its absence during a fresh maintenance-gate event is a
fatal nil dereference rather than a soft miss. -/
theorem C8_soft_miss_amended (pool : Nat) (gateQtr : List Nat) (quarter : Nat)
    (maintGain : ℚ) (useDyn : Bool) (dynValue : Nat → ℚ → ℚ) (yN xN : Nat)
    (gateCnt : Nat → Int) (units : List ((Bool × Nat) × PFCNeuronState))
    (mly : MatrixLayerState) (cycle : Int)
    (ly : PFCDeepState) (maint : Option MaintPFCView) (gi : Nat) (gs : GateState)
    (hnow : gs.Now = true) (hact : 0 < gs.Act) (hout : ly.OutGate = false) :
    ClearMaint none pool = .ok (none, [])
    ∧ DeepMaint gateQtr quarter none maintGain useDyn dynValue yN xN gateCnt units
        = units.map (fun u => u.2)
    ∧ (DAActLrn mly cycle none).Neurons = mly.Neurons
    ∧ GatingPool ly false maint gi gs = .error () := by
  refine ⟨rfl, ?_, ?_, ?_⟩
  · unfold DeepMaint
    split <;> rfl
  · simp only [DAActLrn]
    split <;> rfl
  · unfold GatingPool
    rw [hnow, hout]
    simp [hact]

/-- Witness for the amended C8 on concrete layers. -/
theorem C8_soft_miss_amended_witness :
    ClearMaint none 0 = .ok (none, [])
    ∧ DeepMaint [1] 1 none (4/5) false (fun _ _ => 0) 1 1 (fun _ => 0)
        [((false, 1), ⟨0, 0, 0⟩)]
        = ([((false, 1), ⟨0, 0, 0⟩)] : List ((Bool × Nat) × PFCNeuronState)).map
            (fun u => u.2)
    ∧ (DAActLrn ⟨DaReceptors.D1R, MatrixParams.defaults, 0, 0, 0, 25, []⟩ 0
        none).Neurons = ([] : List MatrixNeuron)
    ∧ GatingPool ⟨false, true, [1, 3], false, 0, 100, []⟩ false none 0 ⟨1, true, 5⟩
        = .error () :=
  C8_soft_miss_amended 0 [1] 1 (4/5) false (fun _ _ => 0) 1 1 (fun _ => 0)
    [((false, 1), ⟨0, 0, 0⟩)] ⟨DaReceptors.D1R, MatrixParams.defaults, 0, 0, 0, 25, []⟩ 0
    ⟨false, true, [1, 3], false, 0, 100, []⟩ none 0 ⟨1, true, 5⟩ rfl (by norm_num) rfl
